import Mathlib

/-!
Shallow embedding of the decode pipeline of `src/components/Base64Decoder.tsx`
(the BRC2.0 base64 calldata decoder).  The decode logic of the component is
embedded as pure Lean functions:

* `bytesToHex`           — lines 33-38 (`bytesToHex`);
* `dispatch`/`markerDecode` — lines 58-112, the marker-dispatch core of
  `decodeBase64` working on the decoded byte sequence;
* `decodeBase64`         — lines 40-119, the whole handler as a transition on
  the component state (`input`, `result`, `error`, `loading`);
* `base64Decode`         — model of the platform `atob` primitive (line 52),
  which is not part of the repository source;
* `parseHex`             — model of the spec's inverse hex reading (§8).

Bytes are `Nat` values; `Uint8Array` elements are always `< 256` and theorems
carry that bound where it matters.  The two decompression backends are external
wasm modules loaded dynamically (lines 11-19), so they enter the model as an
environment `BackendEnv` of `Except`-valued functions: `Except.error e` models
a thrown exception whose rendered message is `e`.
-/

namespace BRC20

/-- Digit character of JS `Number.prototype.toString(16)`: `0`-`9` then
lowercase `a`-`f`. -/
def hexDigitChar (n : Nat) : Char :=
  if n < 10 then Char.ofNat (48 + n) else Char.ofNat (87 + n)

/-- JS `b.toString(16)` on the byte domain: the values rendered by the source
are `Uint8Array` elements and the marker byte, both `< 256`, so at most two
hex digits (no leading zero, lowercase). -/
def natToHexChars (b : Nat) : List Char :=
  if b < 16 then [hexDigitChar b] else [hexDigitChar (b / 16), hexDigitChar (b % 16)]

/-- JS `.padStart(2, '0')` on a character list. -/
def padStart2 (cs : List Char) : List Char :=
  List.replicate (2 - cs.length) '0' ++ cs

/-- JS `Array.prototype.join(' ')`: single space between cells, no leading or
trailing separator, empty array gives the empty string. -/
def joinSpace : List (List Char) → List Char
  | [] => []
  | [x] => x
  | x :: y :: rest => x ++ ' ' :: joinSpace (y :: rest)

/-- Lines 33-38: `bytes.map(b => b.toString(16).padStart(2,'0')).join(' ').toUpperCase()`. -/
def bytesToHex (bytes : List Nat) : String :=
  ⟨(joinSpace (bytes.map fun b => padStart2 (natToHexChars b))).map Char.toUpper⟩

/-- Character-list form of a single rendered byte cell (two uppercase hex
digits). -/
def hexCell (b : Nat) : List Char :=
  (padStart2 (natToHexChars b)).map Char.toUpper

/-- Lines 101 and 103: `firstByte.toString(16).padStart(2, '0').toUpperCase()`. -/
def hexUpper2 (b : Nat) : String :=
  ⟨hexCell b⟩

/-- The `result` record set at lines 107-112. -/
structure DecodeResult where
  compressionType : String
  hexData : String
  originalSize : Nat
  decodedSize : Nat
  deriving DecidableEq

/-- The two dynamically loaded decompression backends (lines 11-19).
`Except.error e` models a thrown exception rendered as `e` by string
interpolation; `Except.ok d` models a successful decompression returning the
byte sequence `d`. -/
structure BackendEnv where
  nada : List Nat → Except String (List Nat)
  zstd : List Nat → Except String (List Nat)

/-- The `switch (firstByte)` of lines 69-105: returns the `compressionType`
label, the settled `decodedData`, and the error message set by this branch
(if any). -/
def dispatch (env : BackendEnv) (firstByte : Nat) (dataWithoutMarker : List Nat) :
    String × List Nat × Option String :=
  if firstByte = 0x00 then
    ("Uncompressed (0x00)", dataWithoutMarker, none)
  else if firstByte = 0x01 then
    match env.nada dataWithoutMarker with
    | Except.ok d => ("NADA (0x01)", d, none)
    | Except.error e =>
        ("NADA (0x01)", dataWithoutMarker, some ("NADA decompression error: " ++ e))
  else if firstByte = 0x02 then
    match env.zstd dataWithoutMarker with
    | Except.ok d => ("ZSTD (0x02)", d, none)
    | Except.error e =>
        ("ZSTD (0x02)", dataWithoutMarker, some ("ZSTD decompression error: " ++ e))
  else
    ("Unknown (0x" ++ hexUpper2 firstByte ++ ")", dataWithoutMarker,
      some ("Unknown compression marker: 0x" ++ hexUpper2 firstByte))

/-- Lines 58-112 on the decoded byte sequence: the empty-bytes guard (lines
58-61), the marker dispatch, and the `setResult` record (lines 107-112).
Returns the error set by this stage (if any) and the produced result (if
any); `origLen` is `input.trim().length` used at line 110. -/
def markerDecode (env : BackendEnv) (origLen : Nat) (bytes : List Nat) :
    Option String × Option DecodeResult :=
  if bytes.length = 0 then (some "Invalid base64 data", none)
  else
    let step := dispatch env (bytes.headD 0) bytes.tail
    (step.2.2,
      some { compressionType := step.1
             hexData := bytesToHex step.2.1
             originalSize := origLen
             decodedSize := step.2.1.length })

/-- Membership of a character in the standard base64 alphabet `A-Z a-z 0-9 + /`. -/
def isBase64Char (c : Char) : Bool :=
  decide (65 ≤ c.toNat ∧ c.toNat ≤ 90) || decide (97 ≤ c.toNat ∧ c.toNat ≤ 122) ||
    decide (48 ≤ c.toNat ∧ c.toNat ≤ 57) || c == '+' || c == '/'

/-- Six-bit value of a base64 alphabet character. -/
def b64Val (c : Char) : Nat :=
  if 65 ≤ c.toNat ∧ c.toNat ≤ 90 then c.toNat - 65
  else if 97 ≤ c.toNat ∧ c.toNat ≤ 122 then c.toNat - 97 + 26
  else if 48 ≤ c.toNat ∧ c.toNat ≤ 57 then c.toNat - 48 + 52
  else if c = '+' then 62
  else if c = '/' then 63
  else 0

/-- Reassembles the bytes of one base64 quantum of four 6-bit values. -/
def quadBytes (a b c d : Nat) : List Nat :=
  [a * 4 + b / 16, b % 16 * 16 + c / 4, c % 4 * 64 + d]

/-- Reassembles bytes from a sequence of 6-bit values, with a final short
group of two or three values contributing one or two bytes. -/
def b64Chunks : List Nat → List Nat
  | a :: b :: c :: d :: rest => quadBytes a b c d ++ b64Chunks rest
  | [a, b] => [a * 4 + b / 16]
  | [a, b, c] => [a * 4 + b / 16, b % 16 * 16 + c / 4]
  | _ => []

/-- The character list with the trailing run of `'='` padding removed. -/
def b64Body (cs : List Char) : List Char :=
  (cs.reverse.dropWhile fun c => c == '=').reverse

/-- Modelled from the spec: the platform `atob` primitive invoked at line 52 is
not part of the repository source; per §4.1 and the §9 design note it is
modelled as a strict RFC 4648 base64 decoder that fails on a character outside
the base64 alphabet (plus `'='` padding), on a total length not a multiple of
four, and on more than two padding characters. -/
def base64Decode (s : String) : Except String (List Nat) :=
  if s.data.length % 4 ≠ 0 then
    Except.error "invalid padding length"
  else if 2 < s.data.length - (b64Body s.data).length then
    Except.error "invalid padding length"
  else if (b64Body s.data).all isBase64Char then
    Except.ok (b64Chunks ((b64Body s.data).map b64Val))
  else
    Except.error "invalid character in base64 input"

/-- JS `String.prototype.trim()` (lines 41, 52, 110): drops leading and
trailing whitespace.  Executable model over the character list; the JS
whitespace class is approximated by `Char.isWhitespace`, which covers every
character the repository's base64 inputs can contain. -/
def jsTrim (s : String) : String :=
  ⟨((s.data.dropWhile Char.isWhitespace).reverse.dropWhile Char.isWhitespace).reverse⟩

/-- The component state touched by `decodeBase64`: the bound `input` string and
the three `useState` cells set by the handler (lines 23-31). -/
structure ComponentState where
  input : String
  result : Option DecodeResult
  error : String
  loading : Bool
  deriving DecidableEq

/-- Lines 40-119 as a transition on the component state, observed after the
handler finishes.  The blank-input guard (lines 41-44) returns early, touching
only `error`; otherwise the previous `error` and `result` are cleared (lines
46-48) before processing, base64 failure lands in the catch (lines 114-116),
and the `finally` (line 117) leaves `loading` false. -/
def decodeBase64 (env : BackendEnv) (st : ComponentState) : ComponentState :=
  if jsTrim st.input = "" then
    { st with error := "Please enter a base64 string" }
  else
    match base64Decode (jsTrim st.input) with
    | Except.error msg =>
        { st with loading := false, result := none,
                  error := "Decoding error: " ++ msg }
    | Except.ok bytes =>
        { st with loading := false,
                  result := (markerDecode env (jsTrim st.input).length bytes).2,
                  error := ((markerDecode env (jsTrim st.input).length bytes).1).getD "" }

/-- Splitter on single spaces, accumulating the current cell in reverse. -/
def splitOnSpaceAux : List Char → List Char → List (List Char)
  | [], acc => [acc.reverse]
  | c :: rest, acc =>
      if c == ' ' then acc.reverse :: splitOnSpaceAux rest []
      else splitOnSpaceAux rest (c :: acc)

/-- Value of one hexadecimal digit character (either case). -/
def hexCharVal (c : Char) : Nat :=
  if 48 ≤ c.toNat ∧ c.toNat ≤ 57 then c.toNat - 48
  else if 65 ≤ c.toNat ∧ c.toNat ≤ 70 then c.toNat - 55
  else if 97 ≤ c.toNat ∧ c.toNat ≤ 102 then c.toNat - 87
  else 0

/-- Numeric value of a hexadecimal token. -/
def hexToken (cs : List Char) : Nat :=
  cs.foldl (fun acc c => acc * 16 + hexCharVal c) 0

/-- Modelled from the spec: `parseHex`, the inverse reading of the canonical
hex format used in the §8 round-trip property, is not part of the repository
source; it splits the string on single spaces and reads each token as a
hexadecimal byte, the empty string yielding the empty sequence. -/
def parseHex (s : String) : List Nat :=
  match s.data with
  | [] => []
  | c :: cs => (splitOnSpaceAux (c :: cs) []).map hexToken

/-- Uppercase hexadecimal digit test (`0`-`9` or `A`-`F`). -/
def isUpperHexDigit (c : Char) : Bool :=
  decide (48 ≤ c.toNat ∧ c.toNat ≤ 57) || decide (65 ≤ c.toNat ∧ c.toNat ≤ 70)

/-- A concrete environment whose backends always throw, modelling a failed
dynamic import or a decompression failure. -/
def constEnv : BackendEnv :=
  { nada := fun _ => Except.error "nada backend unavailable"
    zstd := fun _ => Except.error "zstd backend unavailable" }

/-- The backends of an environment only ever return byte values, as the real
wasm codecs return `Uint8Array`s. -/
def bytesOnly (env : BackendEnv) : Prop :=
  ∀ l r, (env.nada l = Except.ok r → ∀ b ∈ r, b < 256) ∧
    (env.zstd l = Except.ok r → ∀ b ∈ r, b < 256)

theorem sanity_bytesToHex_hello :
    bytesToHex [0x48, 0x65, 0x6C, 0x6C, 0x6F, 0x0A] = "48 65 6C 6C 6F 0A" := by decide

theorem sanity_bytesToHex_empty : bytesToHex [] = "" := by decide

theorem sanity_base64Decode_hello :
    base64Decode "AEhlbGxvCg==" = Except.ok [0x00, 0x48, 0x65, 0x6C, 0x6C, 0x6F, 0x0A] := rfl

theorem sanity_parseHex_hello :
    parseHex "48 65 6C 6C 6F 0A" = [0x48, 0x65, 0x6C, 0x6C, 0x6F, 0x0A] := by decide

theorem sanity_decode_uncompressed :
    decodeBase64 constEnv { input := "AEhlbGxvCg==", result := none, error := "", loading := true } =
      { input := "AEhlbGxvCg=="
        result := some { compressionType := "Uncompressed (0x00)"
                         hexData := "48 65 6C 6C 6F 0A"
                         originalSize := 12
                         decodedSize := 6 }
        error := ""
        loading := false } := by decide

theorem dispatch_zero (env : BackendEnv) (payload : List Nat) :
    dispatch env 0 payload = ("Uncompressed (0x00)", payload, none) := rfl

theorem dispatch_nada_ok (env : BackendEnv) (payload d : List Nat)
    (h : env.nada payload = Except.ok d) :
    dispatch env 1 payload = ("NADA (0x01)", d, none) := by
  simp [dispatch, h]

theorem dispatch_nada_fail (env : BackendEnv) (payload : List Nat) (e : String)
    (h : env.nada payload = Except.error e) :
    dispatch env 1 payload =
      ("NADA (0x01)", payload, some ("NADA decompression error: " ++ e)) := by
  simp [dispatch, h]

theorem dispatch_zstd_ok (env : BackendEnv) (payload d : List Nat)
    (h : env.zstd payload = Except.ok d) :
    dispatch env 2 payload = ("ZSTD (0x02)", d, none) := by
  simp [dispatch, h]

theorem dispatch_zstd_fail (env : BackendEnv) (payload : List Nat) (e : String)
    (h : env.zstd payload = Except.error e) :
    dispatch env 2 payload =
      ("ZSTD (0x02)", payload, some ("ZSTD decompression error: " ++ e)) := by
  simp [dispatch, h]

theorem dispatch_unknown (env : BackendEnv) (m : Nat) (payload : List Nat)
    (h0 : m ≠ 0) (h1 : m ≠ 1) (h2 : m ≠ 2) :
    dispatch env m payload =
      ("Unknown (0x" ++ hexUpper2 m ++ ")", payload,
        some ("Unknown compression marker: 0x" ++ hexUpper2 m)) := by
  simp [dispatch, h0, h1, h2]

theorem markerDecode_cons (env : BackendEnv) (origLen m : Nat) (rest : List Nat) :
    markerDecode env origLen (m :: rest) =
      ((dispatch env m rest).2.2,
        some { compressionType := (dispatch env m rest).1
               hexData := bytesToHex (dispatch env m rest).2.1
               originalSize := origLen
               decodedSize := (dispatch env m rest).2.1.length }) := by
  simp [markerDecode]

theorem dispatch_payload (env : BackendEnv) (m : Nat) (payload : List Nat) :
    (dispatch env m payload).2.1 = payload ∨
      env.nada payload = Except.ok (dispatch env m payload).2.1 ∨
      env.zstd payload = Except.ok (dispatch env m payload).2.1 := by
  unfold dispatch
  split_ifs with h0 h1 h2
  · exact Or.inl rfl
  · cases h : env.nada payload with
    | ok d => exact Or.inr (Or.inl (by simp [h]))
    | error e => exact Or.inl (by simp [h])
  · cases h : env.zstd payload with
    | ok d => exact Or.inr (Or.inr (by simp [h]))
    | error e => exact Or.inl (by simp [h])
  · exact Or.inl rfl

set_option maxRecDepth 40000 in
theorem hexCell_facts :
    ∀ b : Nat, b < 256 →
      (hexCell b).length = 2 ∧
      (∀ c ∈ hexCell b, (c == ' ') = false) ∧
      (∀ c ∈ hexCell b, isUpperHexDigit c = true) ∧
      hexToken (hexCell b) = b := by decide

theorem joinSpace_map (f : Char → Char) (hf : f ' ' = ' ') (cells : List (List Char)) :
    (joinSpace cells).map f = joinSpace (cells.map (List.map f)) := by
  induction cells with
  | nil => rfl
  | cons x rest ih =>
    cases rest with
    | nil => rfl
    | cons y t =>
      simp only [joinSpace, List.map_cons, List.map_append] at *
      rw [hf, ih]

theorem bytesToHex_eq (bytes : List Nat) :
    bytesToHex bytes = ⟨joinSpace (bytes.map hexCell)⟩ := by
  unfold bytesToHex hexCell
  rw [joinSpace_map Char.toUpper (by decide), List.map_map]
  rfl

theorem splitOnSpaceAux_no_space (cs : List Char) :
    ∀ acc, (∀ c ∈ cs, (c == ' ') = false) →
      splitOnSpaceAux cs acc = [acc.reverse ++ cs] := by
  induction cs with
  | nil => intro acc h; simp [splitOnSpaceAux]
  | cons c rest ih =>
    intro acc h
    have hc : (c == ' ') = false := h c (List.mem_cons_self c rest)
    have hrest : ∀ x ∈ rest, (x == ' ') = false := fun x hx => h x (List.mem_cons_of_mem c hx)
    simp [splitOnSpaceAux, hc, ih (c :: acc) hrest]

theorem splitOnSpaceAux_cell (cs rest : List Char) :
    ∀ acc, (∀ c ∈ cs, (c == ' ') = false) →
      splitOnSpaceAux (cs ++ ' ' :: rest) acc =
        (acc.reverse ++ cs) :: splitOnSpaceAux rest [] := by
  induction cs with
  | nil => intro acc h; simp [splitOnSpaceAux]
  | cons c t ih =>
    intro acc h
    have hc : (c == ' ') = false := h c (List.mem_cons_self c t)
    have ht : ∀ x ∈ t, (x == ' ') = false := fun x hx => h x (List.mem_cons_of_mem c hx)
    simp [splitOnSpaceAux, hc, ih (c :: acc) ht]

theorem splitOnSpaceAux_joinSpace (cells : List (List Char)) (hne : cells ≠ [])
    (h : ∀ cell ∈ cells, ∀ c ∈ cell, (c == ' ') = false) :
    splitOnSpaceAux (joinSpace cells) [] = cells := by
  induction cells with
  | nil => exact absurd rfl hne
  | cons x rest ih =>
    cases rest with
    | nil =>
      simpa [joinSpace] using
        splitOnSpaceAux_no_space x [] (h x (List.mem_cons_self x []))
    | cons y t =>
      have hx : ∀ c ∈ x, (c == ' ') = false := h x (List.mem_cons_self x (y :: t))
      have hrest : ∀ cell ∈ y :: t, ∀ c ∈ cell, (c == ' ') = false :=
        fun cell hc => h cell (List.mem_cons_of_mem x hc)
      simp only [joinSpace]
      rw [splitOnSpaceAux_cell x (joinSpace (y :: t)) [] hx,
        ih (List.cons_ne_nil y t) hrest]
      simp

theorem joinSpace_ne_nil (x : List Char) (l : List (List Char)) (hx : x ≠ []) :
    joinSpace (x :: l) ≠ [] := by
  cases l <;> simp [joinSpace, hx]

theorem parseHex_bytesToHex (d : List Nat) (h : ∀ b ∈ d, b < 256) :
    parseHex (bytesToHex d) = d := by
  rw [bytesToHex_eq]
  cases d with
  | nil => rfl
  | cons b t =>
    have hcell : ∀ cell ∈ (b :: t).map hexCell, ∀ c ∈ cell, (c == ' ') = false := by
      intro cell hc c hcc
      obtain ⟨a, ha, rfl⟩ := List.mem_map.mp hc
      exact (hexCell_facts a (h a ha)).2.1 c hcc
    have hxne : hexCell b ≠ [] := by
      have h2 := (hexCell_facts b (h b (List.mem_cons_self b t))).1
      intro hnil
      rw [hnil] at h2
      simp at h2
    have hjne : joinSpace ((b :: t).map hexCell) ≠ [] := by
      simpa using joinSpace_ne_nil (hexCell b) (t.map hexCell) hxne
    obtain ⟨c0, cs0, hj⟩ := List.exists_cons_of_ne_nil hjne
    show parseHex ⟨joinSpace ((b :: t).map hexCell)⟩ = b :: t
    unfold parseHex
    simp only [hj]
    rw [← hj, splitOnSpaceAux_joinSpace _ (by simp) hcell, List.map_map]
    have hid : ∀ a ∈ b :: t, (hexToken ∘ hexCell) a = id a :=
      fun a ha => (hexCell_facts a (h a ha)).2.2.2
    rw [List.map_congr_left hid, List.map_id]

theorem b64Body_append (cs : List Char) :
    b64Body cs ++ (cs.reverse.takeWhile fun c => c == '=').reverse = cs := by
  unfold b64Body
  rw [← List.reverse_append, List.takeWhile_append_dropWhile, List.reverse_reverse]

theorem mem_b64Body (cs : List Char) (c : Char) (hc : c ∈ cs) (hne : c ≠ '=') :
    c ∈ b64Body cs := by
  have hsplit := b64Body_append cs
  rw [← hsplit] at hc
  rcases List.mem_append.mp hc with h | h
  · exact h
  · exfalso
    apply hne
    have hp := List.mem_takeWhile_imp (List.mem_reverse.mp h)
    simpa using hp

theorem base64Decode_fails (s : String)
    (h : (∃ c ∈ s.data, isBase64Char c = false ∧ c ≠ '=') ∨
      s.data.length % 4 ≠ 0 ∨
      2 < s.data.length - (b64Body s.data).length) :
    ∃ msg, base64Decode s = Except.error msg := by
  unfold base64Decode
  split_ifs with hA hB hC
  · exact ⟨"invalid padding length", rfl⟩
  · exact ⟨"invalid padding length", rfl⟩
  · exfalso
    rcases h with ⟨c, hc, hbad, hne⟩ | h4x | hpx
    · have hmem := mem_b64Body s.data c hc hne
      have hAll := List.all_eq_true.mp hC c hmem
      rw [hbad] at hAll
      exact Bool.false_ne_true hAll
    · exact hA h4x
    · exact hB hpx
  · exact ⟨"invalid character in base64 input", rfl⟩

theorem markerDecode_shape (env : BackendEnv) (origLen : Nat) (bytes : List Nat)
    (r : DecodeResult) (h : (markerDecode env origLen bytes).2 = some r) :
    ∃ d : List Nat, r.hexData = bytesToHex d ∧ r.decodedSize = d.length ∧
      r.originalSize = origLen ∧
      (d = bytes.tail ∨ env.nada bytes.tail = Except.ok d ∨
        env.zstd bytes.tail = Except.ok d) := by
  cases bytes with
  | nil => simp [markerDecode] at h
  | cons m rest =>
    rw [markerDecode_cons] at h
    have h2 : ({ compressionType := (dispatch env m rest).1
                 hexData := bytesToHex (dispatch env m rest).2.1
                 originalSize := origLen
                 decodedSize := (dispatch env m rest).2.1.length } : DecodeResult) = r :=
      Option.some.inj h
    obtain rfl := h2.symm
    refine ⟨(dispatch env m rest).2.1, rfl, rfl, rfl, ?_⟩
    exact dispatch_payload env m rest

theorem constEnv_bytesOnly : bytesOnly constEnv := by
  intro l r
  constructor <;> intro h <;> exact absurd h (by simp [constEnv])

/-- C1: for every byte sequence whose first byte is 0x01 (NADA) or 0x02 (ZSTD),
if the selected decompression backend fails, decode does not abort: it reports
the backend-failure error yet still returns a result whose payload is the
original still-compressed payload (the input bytes with the marker stripped),
so a non-null result and a non-null error are delivered together. -/
theorem backend_failure_degraded (env : BackendEnv) (origLen m : Nat)
    (rest : List Nat) (e : String) (hm : m = 1 ∨ m = 2)
    (hfail : (if m = 1 then env.nada rest else env.zstd rest) = Except.error e) :
    markerDecode env origLen (m :: rest) =
      (some ((if m = 1 then "NADA" else "ZSTD") ++ " decompression error: " ++ e),
        some { compressionType := if m = 1 then "NADA (0x01)" else "ZSTD (0x02)"
               hexData := bytesToHex rest
               originalSize := origLen
               decodedSize := rest.length }) := by
  rcases hm with rfl | rfl
  · rw [markerDecode_cons, dispatch_nada_fail env rest e (by simpa using hfail)]
    rfl
  · rw [markerDecode_cons, dispatch_zstd_fail env rest e (by simpa using hfail)]
    rfl

/-- Witness for C1: marker 0x01 with the always-throwing backend environment
still yields a result carrying the raw payload, next to the error. -/
theorem backend_failure_degraded_witness :
    markerDecode constEnv 8 [1, 171] =
      (some "NADA decompression error: nada backend unavailable",
        some { compressionType := "NADA (0x01)"
               hexData := "AB"
               originalSize := 8
               decodedSize := 1 }) :=
  backend_failure_degraded constEnv 8 1 [171] "nada backend unavailable" (Or.inl rfl) rfl

/-- C2: for every non-empty byte sequence whose first byte is not 0x00, 0x01
or 0x02, decode returns a result whose payload is exactly the input with the
marker stripped, reports the unknown-marker error at the same time, and the
result's compressionType contains the marker rendered as a two-digit
uppercase hexadecimal value. -/
theorem unknown_marker_passthrough (env : BackendEnv) (origLen m : Nat)
    (rest : List Nat) (h0 : m ≠ 0) (h1 : m ≠ 1) (h2 : m ≠ 2) :
    markerDecode env origLen (m :: rest) =
      (some ("Unknown compression marker: 0x" ++ hexUpper2 m),
        some { compressionType := "Unknown (0x" ++ hexUpper2 m ++ ")"
               hexData := bytesToHex rest
               originalSize := origLen
               decodedSize := rest.length }) ∧
      (m < 256 → (hexUpper2 m).data.length = 2 ∧
        (∀ c ∈ (hexUpper2 m).data, isUpperHexDigit c = true) ∧
        hexToken (hexUpper2 m).data = m) := by
  constructor
  · rw [markerDecode_cons, dispatch_unknown env m rest h0 h1 h2]
  · intro hlt
    have hf := hexCell_facts m hlt
    exact ⟨hf.1, hf.2.2.1, hf.2.2.2⟩

/-- Witness for C2: marker 0xFF with empty payload gives the pass-through
result labelled with the two-digit uppercase hex marker, plus the error. -/
theorem unknown_marker_passthrough_witness :
    markerDecode constEnv 4 [255] =
      (some "Unknown compression marker: 0xFF",
        some { compressionType := "Unknown (0xFF)"
               hexData := ""
               originalSize := 4
               decodedSize := 0 }) :=
  (unknown_marker_passthrough constEnv 4 255 [] (by decide) (by decide) (by decide)).1

/-- C3: for every byte sequence starting with 0x00, decode returns the payload
unchanged (identity pass-through, no decompression) and reports no error. -/
theorem uncompressed_passthrough (env : BackendEnv) (origLen : Nat) (rest : List Nat) :
    markerDecode env origLen (0 :: rest) =
      (none, some { compressionType := "Uncompressed (0x00)"
                    hexData := bytesToHex rest
                    originalSize := origLen
                    decodedSize := rest.length }) := by
  rw [markerDecode_cons, dispatch_zero]

/-- C4: on a zero-length decoded byte sequence, decode fails with the
empty-input error before any marker dispatch and produces no result. -/
theorem empty_bytes_aborts (env : BackendEnv) (origLen : Nat) :
    markerDecode env origLen [] = (some "Invalid base64 data", none) := rfl

/-- C5: for every input whose trimmed text contains a character outside the
base64 alphabet (plus padding) or has an invalid padding length, decode fails
with the invalid-base64 error and produces no result. -/
theorem invalid_base64_fatal (env : BackendEnv) (st : ComponentState)
    (hne : jsTrim st.input ≠ "")
    (hbad : (∃ c ∈ (jsTrim st.input).data, isBase64Char c = false ∧ c ≠ '=') ∨
      (jsTrim st.input).data.length % 4 ≠ 0 ∨
      2 < (jsTrim st.input).data.length - (b64Body (jsTrim st.input).data).length) :
    (decodeBase64 env st).result = none ∧
      ∃ msg, (decodeBase64 env st).error = "Decoding error: " ++ msg := by
  obtain ⟨msg, hmsg⟩ := base64Decode_fails (jsTrim st.input) hbad
  unfold decodeBase64
  rw [if_neg hne, hmsg]
  exact ⟨rfl, msg, rfl⟩

/-- Witness for C5: the input "ab!c" contains a character outside the base64
alphabet, so decode yields no result and an invalid-base64 error. -/
theorem invalid_base64_fatal_witness :
    (decodeBase64 constEnv
      { input := "ab!c", result := none, error := "", loading := false }).result = none :=
  (invalid_base64_fatal constEnv
    { input := "ab!c", result := none, error := "", loading := false }
    (by decide) (Or.inl ⟨'!', by decide, by decide, by decide⟩)).1

/-- C6: the hex formatter renders each byte as exactly two uppercase
zero-padded hexadecimal digits, cells separated by a single space with no
leading or trailing separator, the empty sequence giving the empty string,
and formatting round-trips: parsing the formatted string yields the original
bytes. -/
theorem hex_format_round_trip (bytes : List Nat) (h : ∀ b ∈ bytes, b < 256) :
    bytesToHex bytes = ⟨joinSpace (bytes.map fun b => (hexUpper2 b).data)⟩ ∧
      (∀ b ∈ bytes, (hexUpper2 b).data.length = 2 ∧
        ∀ c ∈ (hexUpper2 b).data, isUpperHexDigit c = true) ∧
      bytesToHex [] = "" ∧
      parseHex (bytesToHex bytes) = bytes := by
  refine ⟨bytesToHex_eq bytes, ?_, rfl, parseHex_bytesToHex bytes h⟩
  intro b hb
  exact ⟨(hexCell_facts b (h b hb)).1, (hexCell_facts b (h b hb)).2.2.1⟩

/-- Witness for C6: the round-trip evaluated on a concrete byte sequence. -/
theorem hex_format_round_trip_witness :
    parseHex (bytesToHex [0, 255, 16]) = [0, 255, 16] :=
  (hex_format_round_trip [0, 255, 16] (by decide)).2.2.2

/-- C7: every result produced by decode — on the success, backend-failure and
unknown-marker paths alike — has decodedSize equal to the byte length of the
payload embedded in hexData. -/
theorem decoded_size_matches_hex (env : BackendEnv) (origLen : Nat)
    (bytes : List Nat) (r : DecodeResult) (henv : bytesOnly env)
    (hb : ∀ b ∈ bytes, b < 256)
    (h : (markerDecode env origLen bytes).2 = some r) :
    r.decodedSize = (parseHex r.hexData).length := by
  obtain ⟨d, hhex, hsize, horig, hd⟩ := markerDecode_shape env origLen bytes r h
  have hlt : ∀ b ∈ d, b < 256 := by
    rcases hd with rfl | hok | hok
    · intro b hbm
      cases bytes with
      | nil => simp at hbm
      | cons m rest => exact hb b (List.mem_cons_of_mem m hbm)
    · exact (henv bytes.tail d).1 hok
    · exact (henv bytes.tail d).2 hok
  rw [hhex, hsize, parseHex_bytesToHex d hlt]

/-- Witness for C7: the result produced for bytes 0x00 0xAB has decodedSize 1,
the byte length of the payload read back from its hexData. -/
theorem decoded_size_matches_hex_witness :
    ({ compressionType := "Uncompressed (0x00)", hexData := bytesToHex [171],
       originalSize := 3, decodedSize := 1 } : DecodeResult).decodedSize =
      (parseHex ({ compressionType := "Uncompressed (0x00)", hexData := bytesToHex [171],
                   originalSize := 3, decodedSize := 1 } : DecodeResult).hexData).length :=
  decoded_size_matches_hex constEnv 3 [0, 171] _ constEnv_bytesOnly (by decide) rfl

/-- C8: for every invocation that produces a result, the result's originalSize
equals the character length of the whitespace-trimmed input text — the base64
string — not the decoded byte length. -/
theorem original_size_is_trimmed_length (env : BackendEnv) (st : ComponentState)
    (r : DecodeResult) (hstart : st.result = none)
    (h : (decodeBase64 env st).result = some r) :
    r.originalSize = (jsTrim st.input).length := by
  unfold decodeBase64 at h
  by_cases hblank : jsTrim st.input = ""
  · rw [if_pos hblank] at h
    have h3 : st.result = some r := h
    rw [hstart] at h3
    exact absurd h3 (by simp)
  · rw [if_neg hblank] at h
    cases hb64 : base64Decode (jsTrim st.input) with
    | error msg =>
      rw [hb64] at h
      have h3 : (none : Option DecodeResult) = some r := h
      exact absurd h3 (by simp)
    | ok bytes =>
      rw [hb64] at h
      have h2 : (markerDecode env (jsTrim st.input).length bytes).2 = some r := h
      obtain ⟨d, -, -, horig, -⟩ := markerDecode_shape env _ bytes r h2
      exact horig

/-- Witness for C8: decoding "AAAA" produces a result whose originalSize is 4,
the length of the trimmed base64 text (the decoded payload has 2 bytes). -/
theorem original_size_is_trimmed_length_witness :
    ({ compressionType := "Uncompressed (0x00)", hexData := bytesToHex [0, 0],
       originalSize := 4, decodedSize := 2 } : DecodeResult).originalSize =
      (jsTrim "AAAA").length :=
  original_size_is_trimmed_length constEnv
    { input := "AAAA", result := none, error := "", loading := false } _ rfl rfl

/-- C9: on blank (empty or whitespace-only) input, decode sets the
please-enter error, performs no base64 decoding or marker dispatch, and
leaves the previously displayed result and the loading state unchanged. -/
theorem blank_input_no_decode (env : BackendEnv) (st : ComponentState)
    (h : jsTrim st.input = "") :
    decodeBase64 env st = { st with error := "Please enter a base64 string" } := by
  unfold decodeBase64
  rw [if_pos h]

/-- Witness for C9: whitespace-only input leaves the stale result and the
loading flag untouched and only replaces the error text. -/
theorem blank_input_no_decode_witness :
    decodeBase64 constEnv
      { input := "   "
        result := some { compressionType := "Uncompressed (0x00)", hexData := "",
                         originalSize := 1, decodedSize := 0 }
        error := "old", loading := true } =
      { input := "   "
        result := some { compressionType := "Uncompressed (0x00)", hexData := "",
                         originalSize := 1, decodedSize := 0 }
        error := "Please enter a base64 string", loading := true } :=
  blank_input_no_decode constEnv
    { input := "   "
      result := some { compressionType := "Uncompressed (0x00)", hexData := "",
                       originalSize := 1, decodedSize := 0 }
      error := "old", loading := true } (by decide)

/-- C10: every invocation that passes the blank-input check clears the
previous error and result before processing, so after a fatal failure
(invalid base64 or an empty byte sequence) the caller observes a null result
together with the new error — never a stale result from an earlier call. -/
theorem fatal_failure_no_stale_result (env : BackendEnv) (st : ComponentState)
    (hne : jsTrim st.input ≠ "")
    (hfatal : (∃ msg, base64Decode (jsTrim st.input) = Except.error msg) ∨
      base64Decode (jsTrim st.input) = Except.ok []) :
    (decodeBase64 env st).result = none ∧
      ((∃ msg, (decodeBase64 env st).error = "Decoding error: " ++ msg) ∨
        (decodeBase64 env st).error = "Invalid base64 data") := by
  unfold decodeBase64
  rw [if_neg hne]
  rcases hfatal with ⟨msg, hmsg⟩ | hok
  · rw [hmsg]
    exact ⟨rfl, Or.inl ⟨msg, rfl⟩⟩
  · rw [hok]
    exact ⟨rfl, Or.inr rfl⟩

/-- Witness for C10: the invalid input "!!!!" with a stale result in the state
still ends with a null result. -/
theorem fatal_failure_no_stale_result_witness :
    (decodeBase64 constEnv
      { input := "!!!!"
        result := some { compressionType := "Uncompressed (0x00)", hexData := "",
                         originalSize := 1, decodedSize := 0 }
        error := "previous", loading := true }).result = none :=
  (fatal_failure_no_stale_result constEnv
    { input := "!!!!"
      result := some { compressionType := "Uncompressed (0x00)", hexData := "",
                       originalSize := 1, decodedSize := 0 }
      error := "previous", loading := true }
    (by decide) (Or.inl ⟨"invalid character in base64 input", rfl⟩)).1

end BRC20
